import Mathlib

/-!
Verification of the consensus-parameter and quorum-selection engine of the
Maximus node (`src/chainparams.cpp`): the LLMQ quorum catalog, the quorum
adaptation engine (`CChainParams::UpdateLLMQParams`), the deployment table
queries (`CChainParams::IsValidMNActivation`, `CChainParams::GetLLMQ`) and
the test-profile override parsers.  C++ state is embedded as explicit state
passing; machine integers are `Int`/`Nat`; fallible code returns `Option`
or `Except`.
-/

namespace Maximus

/-- Network profile (`strNetworkID`): one of main, test, devnet, regtest. -/
inductive Network where
  | main
  | test
  | devnet
  | regtest
deriving DecidableEq, Repr

/-- LLMQ type identifiers (`Consensus::LLMQType`).  Modelled from the spec:
`consensus/params.h` is not under `src/`; the constructors are the
identifiers referenced by `src/chainparams.cpp`. -/
inductive LLMQType where
  | LLMQ_NONE
  | LLMQ_50_60
  | LLMQ_400_60
  | LLMQ_400_85
  | LLMQ_100_67
  | LLMQ_60_75
  | LLMQ_10_60
  | LLMQ_10_75
  | LLMQ_20_60
  | LLMQ_20_75
  | LLMQ_20_85
  | LLMQ_40_60
  | LLMQ_40_85
  | LLMQ_TEST
  | LLMQ_DEVNET
  | LLMQ_TEST_V17
  | LLMQ_TEST_DIP0024
  | LLMQ_TEST_INSTANTSEND
  | LLMQ_DEVNET_DIP0024
  | LLMQ_TEST_PLATFORM
  | LLMQ_DEVNET_PLATFORM
deriving DecidableEq, Repr

/-- Numeric code of an LLMQ type, giving the `std::map<LLMQType, LLMQParams>`
iteration order.  Modelled from the spec: `consensus/params.h` is not under
`src/`; codes follow the upstream enum layout, and the claims below do not
depend on the particular values, only on their being distinct. -/
def llmqTypeCode : LLMQType → Nat
  | .LLMQ_NONE => 255
  | .LLMQ_50_60 => 1
  | .LLMQ_400_60 => 2
  | .LLMQ_400_85 => 3
  | .LLMQ_100_67 => 4
  | .LLMQ_60_75 => 5
  | .LLMQ_10_60 => 20
  | .LLMQ_10_75 => 21
  | .LLMQ_20_60 => 22
  | .LLMQ_20_75 => 23
  | .LLMQ_20_85 => 24
  | .LLMQ_40_60 => 25
  | .LLMQ_40_85 => 26
  | .LLMQ_TEST => 100
  | .LLMQ_DEVNET => 101
  | .LLMQ_TEST_V17 => 102
  | .LLMQ_TEST_DIP0024 => 103
  | .LLMQ_TEST_INSTANTSEND => 104
  | .LLMQ_DEVNET_DIP0024 => 105
  | .LLMQ_TEST_PLATFORM => 106
  | .LLMQ_DEVNET_PLATFORM => 107

/-- Quorum parameter record (`Consensus::LLMQParams`).  Modelled from the
spec: `llmq/params.h` is not under `src/`; the spec gives the field list
{type, name, size, minSize, signingThreshold, dkgBadVotesThreshold,
dkgInterval, dkgMiningWindow [start, end], usesRotation}. -/
structure LLMQParams where
  type : LLMQType
  name : String
  size : Int
  minSize : Int
  threshold : Int
  dkgBadVotesThreshold : Int
  dkgInterval : Int
  dkgMiningWindowStart : Int
  dkgMiningWindowEnd : Int
  useRotation : Bool
deriving DecidableEq, Repr

/-- Modelled from the spec: the quorum parameter records referenced by
`src/chainparams.cpp` live in `llmq/params.h`, which is not under `src/`.
Each record carries its own type tag and name; numeric DKG fields are
representative constants (no claim below depends on them). -/
def llmq_50_60 : LLMQParams :=
  { type := .LLMQ_50_60, name := "llmq_50_60", size := 50, minSize := 40,
    threshold := 30, dkgBadVotesThreshold := 40, dkgInterval := 24,
    dkgMiningWindowStart := 10, dkgMiningWindowEnd := 18, useRotation := false }

/-- Modelled from the spec: see `llmq_50_60`. -/
def llmq_60_75 : LLMQParams :=
  { type := .LLMQ_60_75, name := "llmq_60_75", size := 60, minSize := 50,
    threshold := 45, dkgBadVotesThreshold := 48, dkgInterval := 288,
    dkgMiningWindowStart := 42, dkgMiningWindowEnd := 50, useRotation := true }

/-- Modelled from the spec: see `llmq_50_60`. -/
def llmq_400_60 : LLMQParams :=
  { type := .LLMQ_400_60, name := "llmq_400_60", size := 400, minSize := 300,
    threshold := 240, dkgBadVotesThreshold := 300, dkgInterval := 288,
    dkgMiningWindowStart := 10, dkgMiningWindowEnd := 18, useRotation := false }

/-- Modelled from the spec: see `llmq_50_60`. -/
def llmq_400_85 : LLMQParams :=
  { type := .LLMQ_400_85, name := "llmq_400_85", size := 400, minSize := 350,
    threshold := 340, dkgBadVotesThreshold := 300, dkgInterval := 576,
    dkgMiningWindowStart := 10, dkgMiningWindowEnd := 18, useRotation := false }

/-- Modelled from the spec: see `llmq_50_60`. -/
def llmq_100_67 : LLMQParams :=
  { type := .LLMQ_100_67, name := "llmq_100_67", size := 100, minSize := 80,
    threshold := 67, dkgBadVotesThreshold := 80, dkgInterval := 24,
    dkgMiningWindowStart := 10, dkgMiningWindowEnd := 18, useRotation := false }

/-- Modelled from the spec: see `llmq_50_60`. -/
def llmq_10_60 : LLMQParams :=
  { type := .LLMQ_10_60, name := "llmq_10_60", size := 10, minSize := 8,
    threshold := 6, dkgBadVotesThreshold := 8, dkgInterval := 24,
    dkgMiningWindowStart := 10, dkgMiningWindowEnd := 18, useRotation := false }

/-- Modelled from the spec: see `llmq_50_60`. -/
def llmq_10_75 : LLMQParams :=
  { type := .LLMQ_10_75, name := "llmq_10_75", size := 10, minSize := 8,
    threshold := 8, dkgBadVotesThreshold := 8, dkgInterval := 288,
    dkgMiningWindowStart := 42, dkgMiningWindowEnd := 50, useRotation := true }

/-- Modelled from the spec: see `llmq_50_60`. -/
def llmq_20_60 : LLMQParams :=
  { type := .LLMQ_20_60, name := "llmq_20_60", size := 20, minSize := 16,
    threshold := 12, dkgBadVotesThreshold := 16, dkgInterval := 288,
    dkgMiningWindowStart := 10, dkgMiningWindowEnd := 18, useRotation := false }

/-- Modelled from the spec: see `llmq_50_60`. -/
def llmq_20_75 : LLMQParams :=
  { type := .LLMQ_20_75, name := "llmq_20_75", size := 20, minSize := 17,
    threshold := 15, dkgBadVotesThreshold := 16, dkgInterval := 288,
    dkgMiningWindowStart := 42, dkgMiningWindowEnd := 50, useRotation := true }

/-- Modelled from the spec: see `llmq_50_60`. -/
def llmq_20_85 : LLMQParams :=
  { type := .LLMQ_20_85, name := "llmq_20_85", size := 20, minSize := 18,
    threshold := 17, dkgBadVotesThreshold := 16, dkgInterval := 576,
    dkgMiningWindowStart := 10, dkgMiningWindowEnd := 18, useRotation := false }

/-- Modelled from the spec: see `llmq_50_60`. -/
def llmq_40_60 : LLMQParams :=
  { type := .LLMQ_40_60, name := "llmq_40_60", size := 40, minSize := 30,
    threshold := 24, dkgBadVotesThreshold := 30, dkgInterval := 288,
    dkgMiningWindowStart := 10, dkgMiningWindowEnd := 18, useRotation := false }

/-- Modelled from the spec: see `llmq_50_60`. -/
def llmq_40_85 : LLMQParams :=
  { type := .LLMQ_40_85, name := "llmq_40_85", size := 40, minSize := 35,
    threshold := 34, dkgBadVotesThreshold := 30, dkgInterval := 576,
    dkgMiningWindowStart := 10, dkgMiningWindowEnd := 18, useRotation := false }

/-- Modelled from the spec: see `llmq_50_60`. -/
def llmq_devnet : LLMQParams :=
  { type := .LLMQ_DEVNET, name := "llmq_devnet", size := 12, minSize := 7,
    threshold := 6, dkgBadVotesThreshold := 7, dkgInterval := 24,
    dkgMiningWindowStart := 10, dkgMiningWindowEnd := 18, useRotation := false }

/-- Modelled from the spec: see `llmq_50_60`; the DIP0024 instant-send role
uses rotation-based quorums. -/
def llmq_devnet_dip0024 : LLMQParams :=
  { type := .LLMQ_DEVNET_DIP0024, name := "llmq_devnet_dip0024", size := 8,
    minSize := 6, threshold := 4, dkgBadVotesThreshold := 7, dkgInterval := 48,
    dkgMiningWindowStart := 12, dkgMiningWindowEnd := 20, useRotation := true }

/-- Modelled from the spec: see `llmq_50_60`. -/
def llmq_devnet_platform : LLMQParams :=
  { type := .LLMQ_DEVNET_PLATFORM, name := "llmq_devnet_platform", size := 12,
    minSize := 9, threshold := 8, dkgBadVotesThreshold := 7, dkgInterval := 24,
    dkgMiningWindowStart := 10, dkgMiningWindowEnd := 18, useRotation := false }

/-- The quorum catalog `std::map<LLMQType, LLMQParams>`: an association list
kept sorted by `llmqTypeCode`. -/
abbrev LLMQMap : Type := List (LLMQType × LLMQParams)

/-- `consensus.llmqs[k] = v` on a `std::map`: replace the entry for key `k`,
or insert it at its sorted position when absent. -/
def llmqSet (m : LLMQMap) (k : LLMQType) (v : LLMQParams) : LLMQMap :=
  match m with
  | [] => [(k, v)]
  | (k', v') :: rest =>
    if llmqTypeCode k < llmqTypeCode k' then (k, v) :: (k', v') :: rest
    else if k = k' then (k, v) :: rest
    else (k', v') :: llmqSet rest k v

/-- `consensus.llmqs.find(k)` / `consensus.llmqs[k]` read access. -/
def llmqLookup (m : LLMQMap) (k : LLMQType) : Option LLMQParams :=
  match m with
  | [] => none
  | (k', v') :: rest => if k' = k then some v' else llmqLookup rest k

/-- Version-bits deployment record (`Consensus::BIP9Deployment`).  Modelled
from the spec: `consensus/params.h` is not under `src/`; fields are
{bit, startTime, timeout, windowSize, thresholdStart, thresholdMin,
falloffCoefficient, usesExceptionalHalvingFlag}. -/
structure Deployment where
  bit : Int
  nStartTime : Int
  nTimeout : Int
  nWindowSize : Int
  nThresholdStart : Int
  nThresholdMin : Int
  nFalloffCoeff : Int
  useEHF : Bool
deriving DecidableEq, Repr

/-- `Consensus::BIP9Deployment::NO_TIMEOUT`.  Modelled from the spec:
`consensus/params.h` is not under `src/`; the sentinel is the largest
signed 64-bit value. -/
def NO_TIMEOUT : Int := 9223372036854775807

/-- Deployment positions (`Consensus::DeploymentPos`), in the index order the
queries iterate.  Modelled from the spec: `consensus/params.h` is not under
`src/`; `src/chainparams.cpp` configures exactly these three positions. -/
inductive DeploymentPos where
  | DEPLOYMENT_TESTDUMMY
  | DEPLOYMENT_V20
  | DEPLOYMENT_MN_RR
deriving DecidableEq, Repr

/-- `VersionBitsDeploymentInfo[pos].name`.  Modelled from the spec:
`deploymentinfo.cpp` is not under `src/`; the override parser matches
deployment names against this table. -/
def deploymentName : DeploymentPos → String
  | .DEPLOYMENT_TESTDUMMY => "testdummy"
  | .DEPLOYMENT_V20 => "v20"
  | .DEPLOYMENT_MN_RR => "mn_rr"

/-- The fixed-size deployment table `consensus.vDeployments`, one slot per
`DeploymentPos`. -/
structure DeploymentTable where
  testdummy : Deployment
  v20 : Deployment
  mnRr : Deployment
deriving DecidableEq, Repr

/-- `consensus.vDeployments[pos]`. -/
def DeploymentTable.get (t : DeploymentTable) : DeploymentPos → Deployment
  | .DEPLOYMENT_TESTDUMMY => t.testdummy
  | .DEPLOYMENT_V20 => t.v20
  | .DEPLOYMENT_MN_RR => t.mnRr

/-- Write one slot of `consensus.vDeployments`. -/
def DeploymentTable.set (t : DeploymentTable) (pos : DeploymentPos) (d : Deployment) : DeploymentTable :=
  match pos with
  | .DEPLOYMENT_TESTDUMMY => { t with testdummy := d }
  | .DEPLOYMENT_V20 => { t with v20 := d }
  | .DEPLOYMENT_MN_RR => { t with mnRr := d }

/-- `consensus.vDeployments` in index order, as iterated by
`IsValidMNActivation` (`for index = 0; index < MAX_VERSION_BITS_DEPLOYMENTS`). -/
def DeploymentTable.toList (t : DeploymentTable) : List Deployment :=
  [t.testdummy, t.v20, t.mnRr]

/-- The fields of `Consensus::Params` this development tracks: the LLMQ
catalog, the four quorum-role type designations, and the deployment table. -/
structure ConsensusState where
  llmqs : LLMQMap
  llmqTypeChainLocks : LLMQType
  llmqTypeDIP0024InstantSend : LLMQType
  llmqTypePlatform : LLMQType
  llmqTypeMnhf : LLMQType
  vDeployments : DeploymentTable
deriving DecidableEq

/-- The whole mutable state seen by `CChainParams::UpdateLLMQParams`: the
selected profile, its consensus parameters, and the two file-scope statics
`lastCheckMnCount` (a `size_t`) and `lastCheckHeight` (an `int`,
initialized to the sentinel -1). -/
structure ChainState where
  network : Network
  consensus : ConsensusState
  lastCheckMnCount : Nat
  lastCheckHeight : Int
deriving DecidableEq

/-- `IsMiningPhase` (chainparams.cpp:1321): `height mod dkgInterval` lies in
`[dkgMiningWindowStart, dkgMiningWindowEnd]`.  C++ `%` truncates toward
zero, which is `Int.tmod`. -/
def isMiningPhase (params : LLMQParams) (nHeight : Int) : Bool :=
  let phaseIndex := Int.tmod nHeight params.dkgInterval
  decide (params.dkgMiningWindowStart ≤ phaseIndex ∧ phaseIndex ≤ params.dkgMiningWindowEnd)

/-- `IsLLMQsMiningPhase` (chainparams.cpp:1329): some registered quorum is in
its DKG mining window at `nHeight`. -/
def isLLMQsMiningPhase (llmqs : LLMQMap) (nHeight : Int) : Bool :=
  llmqs.any fun it => isMiningPhase it.2 nHeight

/-- The tier recomputation body of `CChainParams::UpdateLLMQParams`
(chainparams.cpp:1349-1372): bucket the masternode count and replace the
four adapted catalog entries wholesale. -/
def tierUpdate (isTestNet : Bool) (totalMnCount : Nat) (m : LLMQMap) : LLMQMap :=
  if (decide (totalMnCount < 80) && isTestNet) || (decide (totalMnCount < 100) && !isTestNet) then
    let m := llmqSet m .LLMQ_50_60 llmq_10_60
    let m := llmqSet m .LLMQ_60_75 llmq_10_75
    let m := llmqSet m .LLMQ_400_60 llmq_20_60
    llmqSet m .LLMQ_400_85 llmq_20_85
  else if totalMnCount < 200 then
    let m := llmqSet m .LLMQ_50_60 llmq_50_60
    let m := llmqSet m .LLMQ_60_75 llmq_10_75
    let m := llmqSet m .LLMQ_400_60 llmq_40_60
    llmqSet m .LLMQ_400_85 llmq_40_85
  else if totalMnCount < 600 then
    let m := llmqSet m .LLMQ_50_60 llmq_50_60
    let m := llmqSet m .LLMQ_60_75 llmq_20_75
    let m := llmqSet m .LLMQ_400_60 llmq_40_60
    llmqSet m .LLMQ_400_85 llmq_40_85
  else
    let m := llmqSet m .LLMQ_50_60 llmq_50_60
    let m := llmqSet m .LLMQ_400_60 llmq_400_60
    let m := llmqSet m .LLMQ_400_85 llmq_400_85
    let m := llmqSet m .LLMQ_60_75 llmq_20_75
    if totalMnCount > 2000 then llmqSet m .LLMQ_60_75 llmq_60_75 else m

/-- The guard of the recomputation branch of `UpdateLLMQParams`
(chainparams.cpp:1343-1344): `(lastCheckHeight < height && lastCheckMnCount
!= totalMnCount && !IsLLMQsMiningPhase(height)) || lastCheckHeight == -1`. -/
def updateLLMQParamsGuard (s : ChainState) (totalMnCount : Nat) (height : Int) : Bool :=
  (decide (s.lastCheckHeight < height) && decide (s.lastCheckMnCount ≠ totalMnCount) &&
    !isLLMQsMiningPhase s.consensus.llmqs height) || decide (s.lastCheckHeight = -1)

/-- `CChainParams::UpdateLLMQParams` (chainparams.cpp:1338-1377): no-op on
devnet/regtest; on the guarded branch, record the supplied (count, height)
and replace the four adapted entries by tier; otherwise downgrade only the
LLMQ_60_75 entry when the count is below 80. -/
def updateLLMQParams (s : ChainState) (totalMnCount : Nat) (height : Int) : ChainState :=
  if s.network = .devnet ∨ s.network = .regtest then s
  else if updateLLMQParamsGuard s totalMnCount height then
    let isTestNet := decide (s.network = .test)
    { s with
      lastCheckMnCount := totalMnCount,
      lastCheckHeight := height,
      consensus := { s.consensus with
        llmqs := tierUpdate isTestNet totalMnCount s.consensus.llmqs } }
  else
    if totalMnCount < 80 then
      { s with consensus := { s.consensus with
          llmqs := llmqSet s.consensus.llmqs .LLMQ_60_75 llmq_10_75 } }
    else s

/-- `VERSIONBITS_NUM_BITS`.  Modelled from the spec: `versionbits.h` is not
under `src/`; version bits occupy a fixed number (32) of header bits. -/
def VERSIONBITS_NUM_BITS : Int := 32

/-- The loop body of `CChainParams::IsValidMNActivation`
(chainparams.cpp:113-129): scan deployments in index order; an
out-of-window bit match `continue`s; an in-window match returns `useEHF`;
falling off the end returns `true` (permissive unknown-bit default). -/
def isValidMNActivation (deps : List Deployment) (nBit : Int) (timePast : Int) : Bool :=
  match deps with
  | [] => true
  | d :: rest =>
    if d.bit = nBit then
      if timePast > d.nTimeout ∨ timePast < d.nStartTime then
        isValidMNActivation rest nBit timePast
      else if !d.useEHF then false
      else true
    else isValidMNActivation rest nBit timePast

/-- `CChainParams::IsValidMNActivation` including its entry assertion
`assert(nBit < VERSIONBITS_NUM_BITS)` (chainparams.cpp:111): `none` models
the assertion aborting the process. -/
def isValidMNActivationChecked (deps : List Deployment) (nBit : Int) (timePast : Int) : Option Bool :=
  if nBit < VERSIONBITS_NUM_BITS then some (isValidMNActivation deps nBit timePast) else none

/-- `CChainParams::GetLLMQ` (chainparams.cpp:132-140): first catalog record
whose `type` field equals the argument, or absent. -/
def getLLMQ (llmqs : LLMQMap) (llmqType : LLMQType) : Option LLMQParams :=
  match llmqs with
  | [] => none
  | p :: rest => if p.2.type = llmqType then some p.2 else getLLMQ rest llmqType

/-- Main-profile LLMQ catalog (chainparams.cpp:267-271), built by the same
sequence of `consensus.llmqs[...] = ...` insertions. -/
def mainLLMQCatalog : LLMQMap :=
  let m := llmqSet [] .LLMQ_50_60 llmq_50_60
  let m := llmqSet m .LLMQ_60_75 llmq_60_75
  let m := llmqSet m .LLMQ_400_60 llmq_20_60
  let m := llmqSet m .LLMQ_400_85 llmq_20_85
  llmqSet m .LLMQ_100_67 llmq_100_67

/-- Test-profile LLMQ catalog (chainparams.cpp:432-436); same insertions as
main. -/
def testLLMQCatalog : LLMQMap := mainLLMQCatalog

/-- Devnet-profile LLMQ catalog (chainparams.cpp:597-604). -/
def devnetLLMQCatalog : LLMQMap :=
  let m := llmqSet [] .LLMQ_50_60 llmq_50_60
  let m := llmqSet m .LLMQ_60_75 llmq_60_75
  let m := llmqSet m .LLMQ_400_60 llmq_20_60
  let m := llmqSet m .LLMQ_400_85 llmq_20_85
  let m := llmqSet m .LLMQ_100_67 llmq_100_67
  let m := llmqSet m .LLMQ_DEVNET llmq_devnet
  let m := llmqSet m .LLMQ_DEVNET_DIP0024 llmq_devnet_dip0024
  llmqSet m .LLMQ_DEVNET_PLATFORM llmq_devnet_platform

/-- Main-profile deployment table (chainparams.cpp:189-209); fields the
constructor leaves untouched keep the record defaults (0 / false). -/
def mainDeployments : DeploymentTable :=
  { testdummy :=
      { bit := 28, nStartTime := 1199145601, nTimeout := 1230767999,
        nWindowSize := 0, nThresholdStart := 0, nThresholdMin := 0,
        nFalloffCoeff := 0, useEHF := false },
    v20 :=
      { bit := 9, nStartTime := 0, nTimeout := 1740787200,
        nWindowSize := 4032, nThresholdStart := 3226, nThresholdMin := 2420,
        nFalloffCoeff := 5, useEHF := false },
    mnRr :=
      { bit := 10, nStartTime := 0, nTimeout := 1740787200,
        nWindowSize := 4032, nThresholdStart := 3226, nThresholdMin := 2420,
        nFalloffCoeff := 5, useEHF := true } }

/-- Test-profile deployment table (chainparams.cpp:362-381). -/
def testDeployments : DeploymentTable :=
  { testdummy :=
      { bit := 28, nStartTime := 1199145601, nTimeout := 1230767999,
        nWindowSize := 0, nThresholdStart := 0, nThresholdMin := 0,
        nFalloffCoeff := 0, useEHF := false },
    v20 :=
      { bit := 9, nStartTime := 0, nTimeout := NO_TIMEOUT,
        nWindowSize := 100, nThresholdStart := 80, nThresholdMin := 60,
        nFalloffCoeff := 5, useEHF := false },
    mnRr :=
      { bit := 10, nStartTime := 0, nTimeout := NO_TIMEOUT,
        nWindowSize := 100, nThresholdStart := 80, nThresholdMin := 60,
        nFalloffCoeff := 5, useEHF := true } }

/-- Regtest-profile deployment table with no `-vbparams` overrides
(chainparams.cpp:772-791). -/
def regtestDeployments : DeploymentTable :=
  { testdummy :=
      { bit := 28, nStartTime := 0, nTimeout := NO_TIMEOUT,
        nWindowSize := 0, nThresholdStart := 0, nThresholdMin := 0,
        nFalloffCoeff := 0, useEHF := false },
    v20 :=
      { bit := 9, nStartTime := 0, nTimeout := NO_TIMEOUT,
        nWindowSize := 400, nThresholdStart := 384, nThresholdMin := 288,
        nFalloffCoeff := 5, useEHF := false },
    mnRr :=
      { bit := 10, nStartTime := 0, nTimeout := NO_TIMEOUT,
        nWindowSize := 12, nThresholdStart := 9, nThresholdMin := 7,
        nFalloffCoeff := 5, useEHF := true } }

/-- Main-profile consensus fields (chainparams.cpp:267-275). -/
def mainConsensus : ConsensusState :=
  { llmqs := mainLLMQCatalog,
    llmqTypeChainLocks := .LLMQ_400_60,
    llmqTypeDIP0024InstantSend := .LLMQ_60_75,
    llmqTypePlatform := .LLMQ_100_67,
    llmqTypeMnhf := .LLMQ_400_85,
    vDeployments := mainDeployments }

/-- Test-profile consensus fields (chainparams.cpp:432-440). -/
def testConsensus : ConsensusState :=
  { llmqs := testLLMQCatalog,
    llmqTypeChainLocks := .LLMQ_400_60,
    llmqTypeDIP0024InstantSend := .LLMQ_60_75,
    llmqTypePlatform := .LLMQ_100_67,
    llmqTypeMnhf := .LLMQ_400_85,
    vDeployments := testDeployments }

/-- Devnet-profile consensus fields before command-line overrides
(chainparams.cpp:597-608). -/
def devnetConsensus : ConsensusState :=
  { llmqs := devnetLLMQCatalog,
    llmqTypeChainLocks := .LLMQ_DEVNET,
    llmqTypeDIP0024InstantSend := .LLMQ_DEVNET_DIP0024,
    llmqTypePlatform := .LLMQ_DEVNET_PLATFORM,
    llmqTypeMnhf := .LLMQ_DEVNET,
    vDeployments := testDeployments }

/-- Process state just after selecting the Main profile: statics at their
initializers `lastCheckMnCount = 0`, `lastCheckHeight = -1`
(chainparams.cpp:25-26). -/
def mainState : ChainState :=
  { network := .main, consensus := mainConsensus,
    lastCheckMnCount := 0, lastCheckHeight := -1 }

/-- Process state just after selecting the Test profile. -/
def testState : ChainState :=
  { network := .test, consensus := testConsensus,
    lastCheckMnCount := 0, lastCheckHeight := -1 }

/-! ### Override parsers (regtest `-vbparams`, devnet quorum-role overrides) -/

/-- `SplitString(s, sep)` on a character list: splitting an empty string
yields one empty part, and every separator starts a new part. -/
def splitCharsOn (sep : Char) : List Char → List (List Char)
  | [] => [[]]
  | c :: rest =>
    let r := splitCharsOn sep rest
    if c = sep then [] :: r
    else
      match r with
      | [] => [[c]]
      | h :: t => (c :: h) :: t

/-- `SplitString` (util/string.h) restricted to a single separator char. -/
def splitString (s : String) (sep : Char) : List String :=
  (splitCharsOn sep s.data).map List.asString

/-- Decimal value of a digit list, or `none` if any character is not a
digit. -/
def decDigits? : List Char → Option Nat
  | [] => some 0
  | c :: rest =>
    if c.isDigit then
      (decDigits? rest).map fun n => n + (c.toNat - 48) * 10 ^ rest.length
    else none

/-- `ParseInt64` (util/strencodings).  Modelled from the spec: the parser
source is not under `src/`; per the spec an override numeric field either
parses as a 64-bit integer or the override fails.  Accepts an optional
leading sign followed by decimal digits, within the signed 64-bit range. -/
def parseInt64 (s : String) : Option Int :=
  let core : List Char → Bool → Option Int := fun ds neg =>
    match ds with
    | [] => none
    | _ =>
      (decDigits? ds).bind fun n =>
        let v : Int := if neg then -(n : Int) else (n : Int)
        if -9223372036854775808 ≤ v ∧ v ≤ 9223372036854775807 then some v else none
  match s.data with
  | '-' :: rest => core rest true
  | '+' :: rest => core rest false
  | l => core l false

/-- `CRegTestParams::UpdateVersionBitsParameters` (chainparams.cpp:905-924):
start and timeout are written unconditionally; the other five fields only
when the supplied value is not the `-1` sentinel. -/
def updateVersionBitsParameters (t : DeploymentTable) (d : DeploymentPos)
    (nStartTime nTimeout nWindowSize nThresholdStart nThresholdMin nFalloffCoeff nUseEHF : Int) :
    DeploymentTable :=
  let dep := t.get d
  let dep := { dep with nStartTime := nStartTime, nTimeout := nTimeout }
  let dep := if nWindowSize ≠ -1 then { dep with nWindowSize := nWindowSize } else dep
  let dep := if nThresholdStart ≠ -1 then { dep with nThresholdStart := nThresholdStart } else dep
  let dep := if nThresholdMin ≠ -1 then { dep with nThresholdMin := nThresholdMin } else dep
  let dep := if nFalloffCoeff ≠ -1 then { dep with nFalloffCoeff := nFalloffCoeff } else dep
  let dep := if nUseEHF ≠ -1 then { dep with useEHF := nUseEHF > 0 } else dep
  t.set d dep

/-- The error text of the malformed-field-count branch
(chainparams.cpp:989-992). -/
def vbParamsMalformedMsg : String :=
  "Version bits parameters malformed, expecting <deployment>:<start>:<end> or <deployment>:<start>:<end>:<window>:<threshold> or <deployment>:<start>:<end>:<window>:<thresholdstart>:<thresholdmin>:<falloffcoeff>:<useehf>"

/-- All deployment positions in index order, as scanned by the `-vbparams`
name loop (chainparams.cpp:1021-1029). -/
def deploymentPositions : List DeploymentPos :=
  [.DEPLOYMENT_TESTDUMMY, .DEPLOYMENT_V20, .DEPLOYMENT_MN_RR]

/-- The deployment-name scan and final update of
`UpdateActivationParametersFromArgs` (chainparams.cpp:1020-1032): find the
position whose name equals field 0 and apply `UpdateVersionBitsParameters`,
or report the unknown identifier. -/
def vbParamsApply (t : DeploymentTable) (v : List String)
    (nStartTime nTimeout nWindowSize nThresholdStart nThresholdMin nFalloffCoeff nUseEHF : Int) :
    Except String DeploymentTable :=
  match deploymentPositions.find? fun j => deploymentName j = v.getD 0 "" with
  | some j =>
    .ok (updateVersionBitsParameters t j nStartTime nTimeout nWindowSize nThresholdStart
          nThresholdMin nFalloffCoeff nUseEHF)
  | none => .error ("Invalid deployment (" ++ v.getD 0 "" ++ ")")

/-- The body of `CRegTestParams::UpdateActivationParametersFromArgs`
(chainparams.cpp:986-1033) after splitting on `:`: demand 3, 5 or 8 fields,
parse each present numeric field (fields absent at the shorter lengths keep
the `-1` sentinel), find the deployment by name, and apply
`UpdateVersionBitsParameters`. -/
def vbParamsParse (t : DeploymentTable) (v : List String) :
    Except String DeploymentTable :=
  if v.length ≠ 3 ∧ v.length ≠ 5 ∧ v.length ≠ 8 then
    .error vbParamsMalformedMsg
  else
    match parseInt64 (v.getD 1 "") with
    | none => .error ("Invalid nStartTime (" ++ v.getD 1 "" ++ ")")
    | some nStartTime =>
      match parseInt64 (v.getD 2 "") with
      | none => .error ("Invalid nTimeout (" ++ v.getD 2 "" ++ ")")
      | some nTimeout =>
        if 5 ≤ v.length then
          match parseInt64 (v.getD 3 "") with
          | none => .error ("Invalid nWindowSize (" ++ v.getD 3 "" ++ ")")
          | some nWindowSize =>
            match parseInt64 (v.getD 4 "") with
            | none => .error ("Invalid nThresholdStart (" ++ v.getD 4 "" ++ ")")
            | some nThresholdStart =>
              if v.length = 8 then
                match parseInt64 (v.getD 5 "") with
                | none => .error ("Invalid nThresholdMin (" ++ v.getD 5 "" ++ ")")
                | some nThresholdMin =>
                  match parseInt64 (v.getD 6 "") with
                  | none => .error ("Invalid nFalloffCoeff (" ++ v.getD 6 "" ++ ")")
                  | some nFalloffCoeff =>
                    match parseInt64 (v.getD 7 "") with
                    | none => .error ("Invalid nUseEHF (" ++ v.getD 7 "" ++ ")")
                    | some nUseEHF =>
                      vbParamsApply t v nStartTime nTimeout nWindowSize nThresholdStart
                        nThresholdMin nFalloffCoeff nUseEHF
              else
                vbParamsApply t v nStartTime nTimeout nWindowSize nThresholdStart (-1) (-1) (-1)
        else
          vbParamsApply t v nStartTime nTimeout (-1) (-1) (-1) (-1) (-1)

/-- `CRegTestParams::UpdateActivationParametersFromArgs`
(chainparams.cpp:982-1034) for a single `-vbparams` string. -/
def updateActivationParameters1 (t : DeploymentTable) (strDeployment : String) :
    Except String DeploymentTable :=
  vbParamsParse t (splitString strDeployment ':')

/-- The name-scan loop of `UpdateDevnetLLMQChainLocksFromArgs`
(chainparams.cpp:1166-1174): every record whose name matches is checked
against rotation (throwing if it uses rotation) and becomes the candidate
type; `acc` carries the candidate (`llmqType`, initially `LLMQ_NONE`). -/
def chainLocksNameScan (llmqs : LLMQMap) (strLLMQType : String) (acc : LLMQType) :
    Except String LLMQType :=
  match llmqs with
  | [] =>
    if acc = .LLMQ_NONE then .error "Invalid LLMQ type specified for -llmqchainlocks."
    else .ok acc
  | p :: rest =>
    if p.2.name = strLLMQType then
      if p.2.useRotation then .error "LLMQ type specified for -llmqchainlocks must NOT use rotation"
      else chainLocksNameScan rest strLLMQType p.2.type
    else chainLocksNameScan rest strLLMQType acc

/-- `CDevNetParams::UpdateDevnetLLMQChainLocksFromArgs`
(chainparams.cpp:1157-1180) on the path where `-llmqchainlocks` is set to
`strLLMQType`: on success installs the selected type as the chain-lock
role. -/
def updateDevnetLLMQChainLocksFromArgs (c : ConsensusState) (strLLMQType : String) :
    Except String ConsensusState :=
  (chainLocksNameScan c.llmqs strLLMQType .LLMQ_NONE).map fun t =>
    { c with llmqTypeChainLocks := t }

/-- The name-scan loop of `UpdateDevnetLLMQInstantSendDIP0024FromArgs`
(chainparams.cpp:1191-1199): a matching record must use rotation. -/
def instantSendDIP0024NameScan (llmqs : LLMQMap) (strLLMQType : String) (acc : LLMQType) :
    Except String LLMQType :=
  match llmqs with
  | [] =>
    if acc = .LLMQ_NONE then .error "Invalid LLMQ type specified for -llmqinstantsenddip0024."
    else .ok acc
  | p :: rest =>
    if p.2.name = strLLMQType then
      if !p.2.useRotation then .error "LLMQ type specified for -llmqinstantsenddip0024 must use rotation"
      else instantSendDIP0024NameScan rest strLLMQType p.2.type
    else instantSendDIP0024NameScan rest strLLMQType acc

/-- `CDevNetParams::UpdateDevnetLLMQInstantSendDIP0024FromArgs`
(chainparams.cpp:1182-1205) on the path where `-llmqinstantsenddip0024` is
set to `strLLMQType`. -/
def updateDevnetLLMQInstantSendDIP0024FromArgs (c : ConsensusState) (strLLMQType : String) :
    Except String ConsensusState :=
  (instantSendDIP0024NameScan c.llmqs strLLMQType .LLMQ_NONE).map fun t =>
    { c with llmqTypeDIP0024InstantSend := t }

/-- The name-scan loop of `UpdateDevnetLLMQPlatformFromArgs`
(chainparams.cpp:1216-1221): no rotation validation — a matching record of
either rotation kind becomes the candidate. -/
def platformNameScan (llmqs : LLMQMap) (strLLMQType : String) (acc : LLMQType) :
    Except String LLMQType :=
  match llmqs with
  | [] =>
    if acc = .LLMQ_NONE then .error "Invalid LLMQ type specified for -llmqplatform."
    else .ok acc
  | p :: rest =>
    if p.2.name = strLLMQType then platformNameScan rest strLLMQType p.2.type
    else platformNameScan rest strLLMQType acc

/-- `CDevNetParams::UpdateDevnetLLMQPlatformFromArgs`
(chainparams.cpp:1207-1227) on the path where `-llmqplatform` is set to
`strLLMQType`. -/
def updateDevnetLLMQPlatformFromArgs (c : ConsensusState) (strLLMQType : String) :
    Except String ConsensusState :=
  (platformNameScan c.llmqs strLLMQType .LLMQ_NONE).map fun t =>
    { c with llmqTypePlatform := t }

/-- The name-scan loop of `UpdateDevnetLLMQMnhfFromArgs`
(chainparams.cpp:1238-1243): no rotation validation. -/
def mnhfNameScan (llmqs : LLMQMap) (strLLMQType : String) (acc : LLMQType) :
    Except String LLMQType :=
  match llmqs with
  | [] =>
    if acc = .LLMQ_NONE then .error "Invalid LLMQ type specified for -llmqmnhf."
    else .ok acc
  | p :: rest =>
    if p.2.name = strLLMQType then mnhfNameScan rest strLLMQType p.2.type
    else mnhfNameScan rest strLLMQType acc

/-- `CDevNetParams::UpdateDevnetLLMQMnhfFromArgs` (chainparams.cpp:1229-1249)
on the path where `-llmqmnhf` is set to `strLLMQType`. -/
def updateDevnetLLMQMnhfFromArgs (c : ConsensusState) (strLLMQType : String) :
    Except String ConsensusState :=
  (mnhfNameScan c.llmqs strLLMQType .LLMQ_NONE).map fun t =>
    { c with llmqTypeMnhf := t }

/-! ### Helper lemmas about the catalog map and the tier update -/

theorem llmqLookup_llmqSet (m : LLMQMap) (k : LLMQType) (v : LLMQParams) (t : LLMQType) :
    llmqLookup (llmqSet m k v) t = if k = t then some v else llmqLookup m t := by
  induction m with
  | nil => simp [llmqSet, llmqLookup]
  | cons p rest ih =>
    obtain ⟨k', v'⟩ := p
    simp only [llmqSet]
    by_cases hcode : llmqTypeCode k < llmqTypeCode k'
    · simp only [if_pos hcode, llmqLookup]
    · by_cases hk : k = k'
      · subst hk
        simp only [if_neg hcode, if_pos rfl, llmqLookup]
        by_cases ht : k = t <;> simp [ht]
      · simp only [if_neg hcode, if_neg hk, llmqLookup, ih]
        by_cases h1 : k' = t
        · subst h1
          simp [hk]
        · simp [h1]

theorem llmqLookup_tierUpdate_frame (b : Bool) (c : Nat) (m : LLMQMap) (t : LLMQType)
    (h1 : t ≠ .LLMQ_50_60) (h2 : t ≠ .LLMQ_60_75) (h3 : t ≠ .LLMQ_400_60)
    (h4 : t ≠ .LLMQ_400_85) :
    llmqLookup (tierUpdate b c m) t = llmqLookup m t := by
  have e1 : ¬(LLMQType.LLMQ_50_60 = t) := fun h => h1 h.symm
  have e2 : ¬(LLMQType.LLMQ_60_75 = t) := fun h => h2 h.symm
  have e3 : ¬(LLMQType.LLMQ_400_60 = t) := fun h => h3 h.symm
  have e4 : ¬(LLMQType.LLMQ_400_85 = t) := fun h => h4 h.symm
  unfold tierUpdate
  split
  · simp [llmqLookup_llmqSet, e1, e2, e3, e4]
  · split
    · simp [llmqLookup_llmqSet, e1, e2, e3, e4]
    · split
      · simp [llmqLookup_llmqSet, e1, e2, e3, e4]
      · split <;> simp [llmqLookup_llmqSet, e1, e2, e3, e4]

theorem llmqLookup_tierUpdate_stable (b : Bool) (c : Nat) (m₁ m₂ : LLMQMap) (t : LLMQType)
    (ht : t = .LLMQ_50_60 ∨ t = .LLMQ_60_75 ∨ t = .LLMQ_400_60 ∨ t = .LLMQ_400_85) :
    llmqLookup (tierUpdate b c m₁) t = llmqLookup (tierUpdate b c m₂) t := by
  unfold tierUpdate
  rcases ht with rfl | rfl | rfl | rfl <;>
    · split
      · simp [llmqLookup_llmqSet]
      · split
        · simp [llmqLookup_llmqSet]
        · split
          · simp [llmqLookup_llmqSet]
          · split <;> simp [llmqLookup_llmqSet]

theorem llmqLookup_tierUpdate_small (b : Bool) (c : Nat) (m : LLMQMap) (hc : c < 80) :
    llmqLookup (tierUpdate b c m) .LLMQ_60_75 = some llmq_10_75 := by
  have h100 : c < 100 := by omega
  unfold tierUpdate
  rw [if_pos]
  · simp [llmqLookup_llmqSet]
  · cases b <;> simp [hc, h100]

theorem updateLLMQParams_of_guard (s : ChainState) (c : Nat) (h : Int)
    (hnet : ¬(s.network = .devnet ∨ s.network = .regtest))
    (hg : updateLLMQParamsGuard s c h = true) :
    updateLLMQParams s c h =
      { s with
        lastCheckMnCount := c,
        lastCheckHeight := h,
        consensus := { s.consensus with
          llmqs := tierUpdate (decide (s.network = .test)) c s.consensus.llmqs } } := by
  simp [updateLLMQParams, hnet, hg]

theorem updateLLMQParams_of_sentinel (s : ChainState) (c : Nat) (h : Int)
    (hnet : ¬(s.network = .devnet ∨ s.network = .regtest))
    (hs : s.lastCheckHeight = -1) :
    updateLLMQParams s c h =
      { s with
        lastCheckMnCount := c,
        lastCheckHeight := h,
        consensus := { s.consensus with
          llmqs := tierUpdate (decide (s.network = .test)) c s.consensus.llmqs } } :=
  updateLLMQParams_of_guard s c h hnet (by simp [updateLLMQParamsGuard, hs])

theorem updateLLMQParams_of_not_guard (s : ChainState) (c : Nat) (h : Int)
    (hnet : ¬(s.network = .devnet ∨ s.network = .regtest))
    (hg : updateLLMQParamsGuard s c h = false) :
    updateLLMQParams s c h =
      if c < 80 then
        { s with consensus := { s.consensus with
            llmqs := llmqSet s.consensus.llmqs .LLMQ_60_75 llmq_10_75 } }
      else s := by
  simp [updateLLMQParams, hnet, hg]

/-! ### C1: the recomputation guard -/

/-- C1 (counterexample): on the Main profile in the freshly selected state,
the last-checked height is the sentinel -1 and the last-checked count is 0;
calling the Adaptation Engine with masternode count 0 — equal to the
last-checked count, so claim condition (b) fails — nevertheless performs the
tier recomputation, replacing the LLMQ_50_60 catalog entry. -/
theorem c1_guard_counterexample :
    mainState.lastCheckHeight = -1 ∧ mainState.lastCheckMnCount = 0 ∧
    llmqLookup mainState.consensus.llmqs .LLMQ_50_60 = some llmq_50_60 ∧
    llmqLookup (updateLLMQParams mainState 0 10).consensus.llmqs .LLMQ_50_60 = some llmq_10_60 ∧
    llmq_10_60 ≠ llmq_50_60 ∧
    (updateLLMQParams mainState 0 10).lastCheckHeight = 10 := by
  refine ⟨rfl, rfl, by decide, ?_, by decide, ?_⟩
  · rw [updateLLMQParams_of_sentinel mainState 0 10 (by decide) rfl]
    decide
  · rw [updateLLMQParams_of_sentinel mainState 0 10 (by decide) rfl]

/-- C1 (amended): on Main or Test the tier recomputation runs exactly when
`(lastCheckHeight < height ∧ lastCheckMnCount ≠ count ∧ height is in no
registered DKG mining window) ∨ lastCheckHeight = -1`: the sentinel disjunct
applies to the whole conjunction, so a sentinel last-checked height forces
recomputation even when the count is unchanged or the height is inside a
mining window; when the whole guard fails, the last-checked state is kept
and only the LLMQ_60_75 entry may change. -/
theorem c1_guard_characterization (s : ChainState) (c : Nat) (h : Int)
    (hnet : s.network = .main ∨ s.network = .test) :
    (updateLLMQParamsGuard s c h = true ↔
      ((s.lastCheckHeight < h ∧ s.lastCheckMnCount ≠ c ∧
        isLLMQsMiningPhase s.consensus.llmqs h = false) ∨ s.lastCheckHeight = -1)) ∧
    (updateLLMQParamsGuard s c h = true →
      updateLLMQParams s c h =
        { s with
          lastCheckMnCount := c,
          lastCheckHeight := h,
          consensus := { s.consensus with
            llmqs := tierUpdate (decide (s.network = .test)) c s.consensus.llmqs } }) ∧
    (updateLLMQParamsGuard s c h = false →
      (updateLLMQParams s c h).lastCheckHeight = s.lastCheckHeight ∧
      (updateLLMQParams s c h).lastCheckMnCount = s.lastCheckMnCount ∧
      ∀ t, t ≠ .LLMQ_60_75 →
        llmqLookup (updateLLMQParams s c h).consensus.llmqs t =
          llmqLookup s.consensus.llmqs t) := by
  have hnet' : ¬(s.network = .devnet ∨ s.network = .regtest) := by
    rcases hnet with hm | hm <;> simp [hm]
  refine ⟨?_, ?_, ?_⟩
  · unfold updateLLMQParamsGuard
    simp [Bool.or_eq_true, Bool.and_eq_true, decide_eq_true_eq, Bool.not_eq_true',
      and_assoc]
  · intro hg
    exact updateLLMQParams_of_guard s c h hnet' hg
  · intro hg
    rw [updateLLMQParams_of_not_guard s c h hnet' hg]
    by_cases hc : c < 80
    · refine ⟨by simp [hc], by simp [hc], ?_⟩
      intro t ht
      have h6 : ¬(LLMQType.LLMQ_60_75 = t) := fun he => ht he.symm
      simp [hc, llmqLookup_llmqSet, h6]
    · simp [hc]

/-- C1 (witness): concrete application of the guard characterization at the
freshly selected Main state. -/
theorem c1_guard_characterization_witness :
    updateLLMQParams mainState 7 5 =
      { mainState with
        lastCheckMnCount := 7,
        lastCheckHeight := 5,
        consensus := { mainState.consensus with
          llmqs := tierUpdate (decide (mainState.network = .test)) 7
            mainState.consensus.llmqs } } :=
  (c1_guard_characterization mainState 7 5 (Or.inl rfl)).2.1 (by decide)

/-! ### C3: tier selection -/

/-- C3: when the recomputation runs, the masternode count is bucketed into
profile-dependent tiers.  Count 79 on Test selects the smallest tier
(llmq_10_60 / llmq_10_75 / llmq_20_60 / llmq_20_85); count 80 on Test leaves
the smallest tier; count 99 on Main still selects the smallest tier (Main
boundary is 100); count 100 on Main selects the second tier (llmq_50_60 /
llmq_10_75 / llmq_40_60 / llmq_40_85); count 2001 on Main selects the
largest tier with the 60-of-75 role upgraded to llmq_60_75.  The fresh
states have sentinel last-checked height, so any height recomputes. -/
theorem c3_tier_selection (h : Int) :
    (llmqLookup (updateLLMQParams testState 79 h).consensus.llmqs .LLMQ_50_60 = some llmq_10_60 ∧
     llmqLookup (updateLLMQParams testState 79 h).consensus.llmqs .LLMQ_60_75 = some llmq_10_75 ∧
     llmqLookup (updateLLMQParams testState 79 h).consensus.llmqs .LLMQ_400_60 = some llmq_20_60 ∧
     llmqLookup (updateLLMQParams testState 79 h).consensus.llmqs .LLMQ_400_85 = some llmq_20_85) ∧
    (llmqLookup (updateLLMQParams testState 80 h).consensus.llmqs .LLMQ_50_60 = some llmq_50_60 ∧
     llmqLookup (updateLLMQParams testState 80 h).consensus.llmqs .LLMQ_400_60 = some llmq_40_60) ∧
    (llmqLookup (updateLLMQParams mainState 99 h).consensus.llmqs .LLMQ_50_60 = some llmq_10_60) ∧
    (llmqLookup (updateLLMQParams mainState 100 h).consensus.llmqs .LLMQ_50_60 = some llmq_50_60 ∧
     llmqLookup (updateLLMQParams mainState 100 h).consensus.llmqs .LLMQ_60_75 = some llmq_10_75 ∧
     llmqLookup (updateLLMQParams mainState 100 h).consensus.llmqs .LLMQ_400_60 = some llmq_40_60 ∧
     llmqLookup (updateLLMQParams mainState 100 h).consensus.llmqs .LLMQ_400_85 = some llmq_40_85) ∧
    (llmqLookup (updateLLMQParams mainState 2001 h).consensus.llmqs .LLMQ_50_60 = some llmq_50_60 ∧
     llmqLookup (updateLLMQParams mainState 2001 h).consensus.llmqs .LLMQ_60_75 = some llmq_60_75 ∧
     llmqLookup (updateLLMQParams mainState 2001 h).consensus.llmqs .LLMQ_400_60 = some llmq_400_60 ∧
     llmqLookup (updateLLMQParams mainState 2001 h).consensus.llmqs .LLMQ_400_85 = some llmq_400_85) := by
  rw [updateLLMQParams_of_sentinel testState 79 h (by decide) rfl,
    updateLLMQParams_of_sentinel testState 80 h (by decide) rfl,
    updateLLMQParams_of_sentinel mainState 99 h (by decide) rfl,
    updateLLMQParams_of_sentinel mainState 100 h (by decide) rfl,
    updateLLMQParams_of_sentinel mainState 2001 h (by decide) rfl]
  repeat' apply And.intro
  all_goals rfl

/-! ### C4: the always-applied skip-branch downgrade -/

/-- C4 (counterexample): on Main, with the main guard failing (last-checked
height 10 equals the supplied height) and a masternode count of 90 — which
is below Main's smallest-tier threshold 100 — the skipped branch does NOT
downgrade the 60-of-75 role: its catalog entry stays llmq_60_75.  The
skip-branch downgrade threshold is 80 on every profile, not 100 on Main. -/
theorem c4_skip_counterexample :
    updateLLMQParamsGuard { mainState with lastCheckHeight := 10 } 90 10 = false ∧
    (90 : Nat) < 100 ∧
    llmqLookup (updateLLMQParams { mainState with lastCheckHeight := 10 } 90 10).consensus.llmqs
      .LLMQ_60_75 = some llmq_60_75 ∧
    llmq_60_75 ≠ llmq_10_75 := by
  decide

/-- C4 (amended): on Main or Test, when the main guard fails, the 60-of-75
entry is replaced with llmq_10_75 whenever the count is below 80 — the same
threshold on both profiles — regardless of the height and mining-phase
guards; the last-checked height and count are not updated in this branch,
no other catalog entry changes, and with a count of at least 80 the state
is unchanged entirely. -/
theorem c4_skip_branch (s : ChainState) (c : Nat) (h : Int)
    (hnet : s.network = .main ∨ s.network = .test)
    (hg : updateLLMQParamsGuard s c h = false) :
    ((updateLLMQParams s c h).lastCheckHeight = s.lastCheckHeight ∧
     (updateLLMQParams s c h).lastCheckMnCount = s.lastCheckMnCount) ∧
    (c < 80 →
      llmqLookup (updateLLMQParams s c h).consensus.llmqs .LLMQ_60_75 = some llmq_10_75) ∧
    (80 ≤ c → updateLLMQParams s c h = s) ∧
    (∀ t, t ≠ .LLMQ_60_75 →
      llmqLookup (updateLLMQParams s c h).consensus.llmqs t = llmqLookup s.consensus.llmqs t) := by
  have hnet' : ¬(s.network = .devnet ∨ s.network = .regtest) := by
    rcases hnet with hm | hm <;> simp [hm]
  rw [updateLLMQParams_of_not_guard s c h hnet' hg]
  by_cases hc : c < 80
  · rw [if_pos hc]
    refine ⟨⟨rfl, rfl⟩, fun _ => ?_, fun hge => absurd hc (by omega), ?_⟩
    · simp [llmqLookup_llmqSet]
    · intro t ht
      have h6 : ¬(LLMQType.LLMQ_60_75 = t) := fun he => ht he.symm
      simp [llmqLookup_llmqSet, h6]
  · rw [if_neg hc]
    exact ⟨⟨rfl, rfl⟩, fun hlt => absurd hlt hc, fun _ => rfl, fun _ _ => rfl⟩

/-- C4 (witness): on Main with the guard failing and count 50 < 80 the
60-of-75 entry is downgraded. -/
theorem c4_skip_branch_witness :
    llmqLookup (updateLLMQParams { mainState with lastCheckHeight := 10 } 50 10).consensus.llmqs
      .LLMQ_60_75 = some llmq_10_75 :=
  (c4_skip_branch { mainState with lastCheckHeight := 10 } 50 10 (Or.inl rfl)
    (by decide)).2.1 (by omega)

/-! ### C5: idempotence of repeated adaptation calls -/

/-- C5: calling the Adaptation Engine a second time with the same
(count, height) immediately after a call on which the recomputation guard
held leaves every quorum catalog entry with the same value as after the
first call. -/
theorem c5_idempotent (s : ChainState) (c : Nat) (h : Int)
    (hg : updateLLMQParamsGuard s c h = true) (t : LLMQType) :
    llmqLookup (updateLLMQParams (updateLLMQParams s c h) c h).consensus.llmqs t =
      llmqLookup (updateLLMQParams s c h).consensus.llmqs t := by
  by_cases hnet : s.network = .devnet ∨ s.network = .regtest
  · simp [updateLLMQParams, hnet]
  · rw [updateLLMQParams_of_guard s c h hnet hg]
    have hnet2 : ¬(({ s with
        lastCheckMnCount := c,
        lastCheckHeight := h,
        consensus := { s.consensus with
          llmqs := tierUpdate (decide (s.network = .test)) c s.consensus.llmqs } } :
        ChainState).network = .devnet ∨
        ({ s with
        lastCheckMnCount := c,
        lastCheckHeight := h,
        consensus := { s.consensus with
          llmqs := tierUpdate (decide (s.network = .test)) c s.consensus.llmqs } } :
        ChainState).network = .regtest) := hnet
    by_cases hh : h = (-1 : Int)
    · have hg2 := updateLLMQParams_of_sentinel
        { s with
          lastCheckMnCount := c,
          lastCheckHeight := h,
          consensus := { s.consensus with
            llmqs := tierUpdate (decide (s.network = .test)) c s.consensus.llmqs } }
        c h hnet2 (by simpa using hh)
      rw [hg2]
      by_cases hfour : t = .LLMQ_50_60 ∨ t = .LLMQ_60_75 ∨ t = .LLMQ_400_60 ∨ t = .LLMQ_400_85
      · exact llmqLookup_tierUpdate_stable (decide (s.network = .test)) c _ _ t hfour
      · push_neg at hfour
        obtain ⟨h1, h2, h3, h4⟩ := hfour
        exact llmqLookup_tierUpdate_frame (decide (s.network = .test)) c _ t h1 h2 h3 h4
    · have hg2 : updateLLMQParamsGuard
        { s with
          lastCheckMnCount := c,
          lastCheckHeight := h,
          consensus := { s.consensus with
            llmqs := tierUpdate (decide (s.network = .test)) c s.consensus.llmqs } } c h = false := by
        simp [updateLLMQParamsGuard, hh]
      rw [updateLLMQParams_of_not_guard _ c h hnet2 hg2]
      by_cases hc : c < 80
      · rw [if_pos hc]
        show llmqLookup (llmqSet (tierUpdate (decide (s.network = .test)) c s.consensus.llmqs)
          .LLMQ_60_75 llmq_10_75) t = _
        rw [llmqLookup_llmqSet]
        by_cases ht : (LLMQType.LLMQ_60_75 : LLMQType) = t
        · rw [if_pos ht, ← ht]
          exact (llmqLookup_tierUpdate_small (decide (s.network = .test)) c
            s.consensus.llmqs hc).symm
        · rw [if_neg ht]
      · rw [if_neg hc]

/-- C5 (witness): concrete second call at the freshly selected Main state. -/
theorem c5_idempotent_witness :
    llmqLookup
        (updateLLMQParams (updateLLMQParams mainState 5 3) 5 3).consensus.llmqs .LLMQ_60_75 =
      llmqLookup (updateLLMQParams mainState 5 3).consensus.llmqs .LLMQ_60_75 :=
  c5_idempotent mainState 5 3 (by decide) .LLMQ_60_75

/-! ### C10: frame property of the Adaptation Engine -/

/-- C10: every Adaptation Engine call leaves the network tag, the four
quorum-role designations, the deployment table, and every catalog entry
other than the four adapted roles (in particular LLMQ_100_67) unchanged;
on Devnet or Regtest the whole state is unchanged. -/
theorem c10_update_frame (s : ChainState) (c : Nat) (h : Int) :
    ((s.network = .devnet ∨ s.network = .regtest) → updateLLMQParams s c h = s) ∧
    (updateLLMQParams s c h).network = s.network ∧
    (updateLLMQParams s c h).consensus.llmqTypeChainLocks = s.consensus.llmqTypeChainLocks ∧
    (updateLLMQParams s c h).consensus.llmqTypeDIP0024InstantSend =
      s.consensus.llmqTypeDIP0024InstantSend ∧
    (updateLLMQParams s c h).consensus.llmqTypePlatform = s.consensus.llmqTypePlatform ∧
    (updateLLMQParams s c h).consensus.llmqTypeMnhf = s.consensus.llmqTypeMnhf ∧
    (updateLLMQParams s c h).consensus.vDeployments = s.consensus.vDeployments ∧
    (∀ t, t ≠ .LLMQ_50_60 → t ≠ .LLMQ_60_75 → t ≠ .LLMQ_400_60 → t ≠ .LLMQ_400_85 →
      llmqLookup (updateLLMQParams s c h).consensus.llmqs t = llmqLookup s.consensus.llmqs t) ∧
    llmqLookup (updateLLMQParams s c h).consensus.llmqs .LLMQ_100_67 =
      llmqLookup s.consensus.llmqs .LLMQ_100_67 := by
  by_cases hnet : s.network = .devnet ∨ s.network = .regtest
  · simp [updateLLMQParams, hnet]
  · by_cases hg : updateLLMQParamsGuard s c h = true
    · rw [updateLLMQParams_of_guard s c h hnet hg]
      refine ⟨fun hx => absurd hx hnet, rfl, rfl, rfl, rfl, rfl, rfl, ?_, ?_⟩
      · intro t h1 h2 h3 h4
        exact llmqLookup_tierUpdate_frame (decide (s.network = .test)) c s.consensus.llmqs t
          h1 h2 h3 h4
      · exact llmqLookup_tierUpdate_frame (decide (s.network = .test)) c s.consensus.llmqs
          .LLMQ_100_67 (by decide) (by decide) (by decide) (by decide)
    · have hg2 : updateLLMQParamsGuard s c h = false := by
        revert hg
        cases updateLLMQParamsGuard s c h <;> simp
      rw [updateLLMQParams_of_not_guard s c h hnet hg2]
      by_cases hc : c < 80
      · rw [if_pos hc]
        refine ⟨fun hx => absurd hx hnet, rfl, rfl, rfl, rfl, rfl, rfl, ?_, ?_⟩
        · intro t _ h2 _ _
          have h6 : ¬(LLMQType.LLMQ_60_75 = t) := fun he => h2 he.symm
          simp [llmqLookup_llmqSet, h6]
        · simp [llmqLookup_llmqSet]
      · rw [if_neg hc]
        exact ⟨fun hx => absurd hx hnet, rfl, rfl, rfl, rfl, rfl, rfl,
          fun _ _ _ _ _ => rfl, rfl⟩

/-- C10 (witness): on a Devnet state the Adaptation Engine is the identity,
and a Main-profile call keeps the LLMQ_100_67 entry. -/
theorem c10_update_frame_witness :
    updateLLMQParams
        { network := .devnet, consensus := devnetConsensus,
          lastCheckMnCount := 0, lastCheckHeight := -1 } 5 9 =
      { network := .devnet, consensus := devnetConsensus,
        lastCheckMnCount := 0, lastCheckHeight := -1 } ∧
    llmqLookup (updateLLMQParams mainState 5 9).consensus.llmqs .LLMQ_100_67 =
      llmqLookup mainState.consensus.llmqs .LLMQ_100_67 :=
  ⟨(c10_update_frame
      { network := .devnet, consensus := devnetConsensus,
        lastCheckMnCount := 0, lastCheckHeight := -1 } 5 9).1 (Or.inl rfl),
   (c10_update_frame mainState 5 9).2.2.2.2.2.2.2.2⟩

/-! ### Deployment-query lemmas and claims C2, C6, C7 -/

theorem isValidMNActivation_all_out (deps : List Deployment) (nBit timePast : Int)
    (h : ∀ d ∈ deps, d.bit = nBit → timePast < d.nStartTime ∨ d.nTimeout < timePast) :
    isValidMNActivation deps nBit timePast = true := by
  induction deps with
  | nil => rfl
  | cons d rest ih =>
    simp only [isValidMNActivation]
    by_cases hb : d.bit = nBit
    · have hout := h d (by simp) hb
      rw [if_pos hb, if_pos (by tauto)]
      exact ih fun d' hd' => h d' (by simp [hd'])
    · rw [if_neg hb]
      exact ih fun d' hd' => h d' (by simp [hd'])

theorem isValidMNActivation_first_in_window (pre : List Deployment) (d : Deployment)
    (post : List Deployment) (nBit timePast : Int)
    (hpre : ∀ d' ∈ pre, d'.bit = nBit → timePast < d'.nStartTime ∨ d'.nTimeout < timePast)
    (hb : d.bit = nBit) (h1 : d.nStartTime ≤ timePast) (h2 : timePast ≤ d.nTimeout) :
    isValidMNActivation (pre ++ d :: post) nBit timePast = d.useEHF := by
  induction pre with
  | nil =>
    simp only [List.nil_append, isValidMNActivation]
    rw [if_pos hb, if_neg (by omega)]
    cases hEHF : d.useEHF <;> simp
  | cons p rest ih =>
    simp only [List.cons_append, isValidMNActivation]
    by_cases hpb : p.bit = nBit
    · have hout := hpre p (by simp) hpb
      rw [if_pos hpb, if_pos (by tauto)]
      exact ih fun d' hd' => hpre d' (by simp [hd'])
    · rw [if_neg hpb]
      exact ih fun d' hd' => hpre d' (by simp [hd'])

/-- A sample deployment table entry with `startTime = 0`, `timeout = 100`
and the exceptional-halving flag set, as in the spec's worked example. -/
def ehfExampleDeps : List Deployment :=
  [{ bit := 1, nStartTime := 0, nTimeout := 100, nWindowSize := 10,
     nThresholdStart := 8, nThresholdMin := 6, nFalloffCoeff := 5, useEHF := true }]

/-- C2 (counterexample): for a configured deployment with startTime 0,
timeout 100 and the exceptional-halving flag set, a query at time 50 returns
true as the claim states, but queries at time 150 and at time -1 also
return true — the out-of-window scan `continue`s past the matching bit and
falls through to the permissive unknown-bit `return true` — where the claim
predicts false. -/
theorem c2_window_counterexample :
    isValidMNActivation ehfExampleDeps 1 50 = true ∧
    isValidMNActivation ehfExampleDeps 1 150 = true ∧
    isValidMNActivation ehfExampleDeps 1 (-1) = true := by
  decide

/-- C2 (amended): the first deployment with the queried bit whose window
`[startTime, timeout]` contains the query time decides the result by its
exceptional-halving flag; when every deployment with that bit has a window
excluding the query time, the scan falls through and returns true (the
permissive unknown-bit default), not false. -/
theorem c2_deployment_window (deps : List Deployment) (nBit timePast : Int) :
    ((∀ d ∈ deps, d.bit = nBit → timePast < d.nStartTime ∨ d.nTimeout < timePast) →
      isValidMNActivation deps nBit timePast = true) ∧
    (∀ pre d post, deps = pre ++ d :: post →
      (∀ d' ∈ pre, d'.bit = nBit → timePast < d'.nStartTime ∨ d'.nTimeout < timePast) →
      d.bit = nBit → d.nStartTime ≤ timePast → timePast ≤ d.nTimeout →
      isValidMNActivation deps nBit timePast = d.useEHF) := by
  refine ⟨fun h => isValidMNActivation_all_out deps nBit timePast h, ?_⟩
  intro pre d post heq hpre hb h1 h2
  rw [heq]
  exact isValidMNActivation_first_in_window pre d post nBit timePast hpre hb h1 h2

/-- C2 (witness): at time 50 the example deployment is in window and the
flag decides (true); at time 150 every matching window excludes the time
and the query returns true. -/
theorem c2_deployment_window_witness :
    isValidMNActivation ehfExampleDeps 1 50 = true ∧
    isValidMNActivation ehfExampleDeps 1 150 = true :=
  ⟨(c2_deployment_window ehfExampleDeps 1 50).2 [] (ehfExampleDeps.get ⟨0, by decide⟩) []
      rfl (by decide) (by decide) (by decide) (by decide),
   (c2_deployment_window ehfExampleDeps 1 150).1 (by decide)⟩

/-- C6: querying any bit (below the version-bits bound) that no configured
deployment uses returns true and raises no error. -/
theorem c6_unknown_bit_permissive (deps : List Deployment) (nBit timePast : Int)
    (hlt : nBit < VERSIONBITS_NUM_BITS) (hnone : ∀ d ∈ deps, d.bit ≠ nBit) :
    isValidMNActivationChecked deps nBit timePast = some true := by
  unfold isValidMNActivationChecked
  rw [if_pos hlt]
  exact congrArg some
    (isValidMNActivation_all_out deps nBit timePast
      fun d hd hbit => absurd hbit (hnone d hd))

/-- C6 (witness): bit 5 is unused by the example table. -/
theorem c6_unknown_bit_permissive_witness :
    isValidMNActivationChecked ehfExampleDeps 5 77 = some true :=
  c6_unknown_bit_permissive ehfExampleDeps 5 77 (by decide) (by decide)

/-- C7 (counterexample): the claim says the activation query returns a
boolean for every integer bit without aborting, but the entry assertion
`assert(nBit < VERSIONBITS_NUM_BITS)` aborts at bit 32 (modelled as a
`none` result). -/
theorem c7_total_counterexample :
    isValidMNActivationChecked (DeploymentTable.toList mainDeployments) 32 50 = none := by
  decide

/-- C7 (amended): the activation query returns a boolean exactly for bits
below the version-bits bound (the entry assertion aborts otherwise); the
quorum lookup is total: for every catalog and type it returns either a
record or the defined absent result; and the Adaptation Engine call never
fails: every call deterministically yields one of its three defined
outcomes — the state unchanged, the tier recomputation with the
last-checked state recorded, or the skip-branch 60-of-75 downgrade — with
no error or abort path. -/
theorem c7_runtime_queries_total (deps : List Deployment) (nBit timePast : Int) :
    ((isValidMNActivationChecked deps nBit timePast).isSome ↔ nBit < VERSIONBITS_NUM_BITS) ∧
    (∀ (m : LLMQMap) (ty : LLMQType), getLLMQ m ty = none ∨ ∃ p, getLLMQ m ty = some p) ∧
    ∀ (st : ChainState) (c : Nat) (h : Int),
      updateLLMQParams st c h = st ∨
      updateLLMQParams st c h =
        { st with
          lastCheckMnCount := c,
          lastCheckHeight := h,
          consensus := { st.consensus with
            llmqs := tierUpdate (decide (st.network = .test)) c st.consensus.llmqs } } ∨
      updateLLMQParams st c h =
        { st with consensus := { st.consensus with
            llmqs := llmqSet st.consensus.llmqs .LLMQ_60_75 llmq_10_75 } } := by
  refine ⟨?_, ?_, ?_⟩
  · unfold isValidMNActivationChecked
    by_cases hlt : nBit < VERSIONBITS_NUM_BITS <;> simp [hlt]
  · intro m ty
    cases hg : getLLMQ m ty with
    | none => exact Or.inl rfl
    | some p => exact Or.inr ⟨p, rfl⟩
  · intro st c h
    by_cases hnet : st.network = .devnet ∨ st.network = .regtest
    · exact Or.inl (by simp [updateLLMQParams, hnet])
    · by_cases hg : updateLLMQParamsGuard st c h = true
      · exact Or.inr (Or.inl (updateLLMQParams_of_guard st c h hnet hg))
      · have hg2 : updateLLMQParamsGuard st c h = false := by
          revert hg
          cases updateLLMQParamsGuard st c h <;> simp
        rw [updateLLMQParams_of_not_guard st c h hnet hg2]
        by_cases hc : c < 80
        · exact Or.inr (Or.inr (by rw [if_pos hc]))
        · exact Or.inl (by rw [if_neg hc])

/-! ### C8: quorum-role override validation -/

theorem chainLocksNameScan_rotation (l : LLMQMap) (str : String)
    (hex : ∃ e ∈ l, e.2.name = str ∧ e.2.useRotation = true) :
    ∀ acc, (chainLocksNameScan l str acc).isOk = false := by
  induction l with
  | nil => simp at hex
  | cons p rest ih =>
    intro acc
    simp only [chainLocksNameScan]
    by_cases hn : p.2.name = str
    · rw [if_pos hn]
      by_cases hr : p.2.useRotation
      · rw [if_pos hr]; rfl
      · rw [if_neg hr]
        rcases hex with ⟨e, he, hen, her⟩
        rcases List.mem_cons.mp he with rfl | hmem
        · exact absurd her (by simpa using hr)
        · exact ih ⟨e, hmem, hen, her⟩ p.2.type
    · rw [if_neg hn]
      rcases hex with ⟨e, he, hen, her⟩
      rcases List.mem_cons.mp he with rfl | hmem
      · exact absurd hen hn
      · exact ih ⟨e, hmem, hen, her⟩ acc

theorem instantSendNameScan_no_rotation (l : LLMQMap) (str : String)
    (hex : ∃ e ∈ l, e.2.name = str ∧ e.2.useRotation = false) :
    ∀ acc, (instantSendDIP0024NameScan l str acc).isOk = false := by
  induction l with
  | nil => simp at hex
  | cons p rest ih =>
    intro acc
    simp only [instantSendDIP0024NameScan]
    by_cases hn : p.2.name = str
    · rw [if_pos hn]
      by_cases hr : p.2.useRotation
      · rw [if_neg (by simp [hr])]
        rcases hex with ⟨e, he, hen, her⟩
        rcases List.mem_cons.mp he with rfl | hmem
        · exact absurd her (by simp [hr])
        · exact ih ⟨e, hmem, hen, her⟩ p.2.type
      · rw [if_pos (by simp [hr])]; rfl
    · rw [if_neg hn]
      rcases hex with ⟨e, he, hen, her⟩
      rcases List.mem_cons.mp he with rfl | hmem
      · exact absurd hen hn
      · exact ih ⟨e, hmem, hen, her⟩ acc

theorem platformNameScan_acc_ok (l : LLMQMap) (str : String)
    (htypes : ∀ e ∈ l, e.2.type ≠ .LLMQ_NONE) :
    ∀ acc, acc ≠ .LLMQ_NONE → (platformNameScan l str acc).isOk = true := by
  induction l with
  | nil =>
    intro acc hacc
    simp only [platformNameScan]
    rw [if_neg hacc]
    rfl
  | cons p rest ih =>
    intro acc hacc
    simp only [platformNameScan]
    by_cases hn : p.2.name = str
    · rw [if_pos hn]
      exact ih (fun e he => htypes e (by simp [he])) p.2.type (htypes p (by simp))
    · rw [if_neg hn]
      exact ih (fun e he => htypes e (by simp [he])) acc hacc

theorem platformNameScan_match_ok (l : LLMQMap) (str : String)
    (htypes : ∀ e ∈ l, e.2.type ≠ .LLMQ_NONE)
    (hex : ∃ e ∈ l, e.2.name = str) :
    ∀ acc, (platformNameScan l str acc).isOk = true := by
  induction l with
  | nil => simp at hex
  | cons p rest ih =>
    intro acc
    simp only [platformNameScan]
    by_cases hn : p.2.name = str
    · rw [if_pos hn]
      exact platformNameScan_acc_ok rest str (fun e he => htypes e (by simp [he]))
        p.2.type (htypes p (by simp))
    · rw [if_neg hn]
      rcases hex with ⟨e, he, hen⟩
      rcases List.mem_cons.mp he with rfl | hmem
      · exact absurd hen hn
      · exact ih (fun e2 he2 => htypes e2 (by simp [he2])) ⟨e, hmem, hen⟩ acc

theorem mnhfNameScan_acc_ok (l : LLMQMap) (str : String)
    (htypes : ∀ e ∈ l, e.2.type ≠ .LLMQ_NONE) :
    ∀ acc, acc ≠ .LLMQ_NONE → (mnhfNameScan l str acc).isOk = true := by
  induction l with
  | nil =>
    intro acc hacc
    simp only [mnhfNameScan]
    rw [if_neg hacc]
    rfl
  | cons p rest ih =>
    intro acc hacc
    simp only [mnhfNameScan]
    by_cases hn : p.2.name = str
    · rw [if_pos hn]
      exact ih (fun e he => htypes e (by simp [he])) p.2.type (htypes p (by simp))
    · rw [if_neg hn]
      exact ih (fun e he => htypes e (by simp [he])) acc hacc

theorem mnhfNameScan_match_ok (l : LLMQMap) (str : String)
    (htypes : ∀ e ∈ l, e.2.type ≠ .LLMQ_NONE)
    (hex : ∃ e ∈ l, e.2.name = str) :
    ∀ acc, (mnhfNameScan l str acc).isOk = true := by
  induction l with
  | nil => simp at hex
  | cons p rest ih =>
    intro acc
    simp only [mnhfNameScan]
    by_cases hn : p.2.name = str
    · rw [if_pos hn]
      exact mnhfNameScan_acc_ok rest str (fun e he => htypes e (by simp [he]))
        p.2.type (htypes p (by simp))
    · rw [if_neg hn]
      rcases hex with ⟨e, he, hen⟩
      rcases List.mem_cons.mp he with rfl | hmem
      · exact absurd hen hn
      · exact ih (fun e2 he2 => htypes e2 (by simp [he2])) ⟨e, hmem, hen⟩ acc

theorem exceptMap_isOk {ε α β : Type} (f : α → β) (e : Except ε α) :
    (e.map f).isOk = e.isOk := by
  cases e <;> rfl

instance {ε α : Type} [DecidableEq ε] [DecidableEq α] : DecidableEq (Except ε α) :=
  fun x y =>
    match x, y with
    | .ok a, .ok b =>
      if h : a = b then .isTrue (by rw [h]) else .isFalse (by intro he; cases he; exact h rfl)
    | .error a, .error b =>
      if h : a = b then .isTrue (by rw [h]) else .isFalse (by intro he; cases he; exact h rfl)
    | .ok _, .error _ => .isFalse (by intro he; cases he)
    | .error _, .ok _ => .isFalse (by intro he; cases he)

/-- C8 (counterexample): on the Devnet catalog, `llmq_devnet_dip0024` is a
rotation-based record while the platform and masternode-hard-fork roles are
non-rotation roles; supplying its name to the platform and mnhf overrides
nevertheless succeeds (installing the rotation type), while the same name
supplied to the chain-lock override fails with the rotation error — the
overrides are not uniformly validated as the claim states. -/
theorem c8_platform_no_rotation_check :
    llmq_devnet_dip0024.useRotation = true ∧
    llmq_devnet_platform.useRotation = false ∧
    devnetConsensus.llmqTypePlatform = .LLMQ_DEVNET_PLATFORM ∧
    updateDevnetLLMQPlatformFromArgs devnetConsensus "llmq_devnet_dip0024" =
      .ok { devnetConsensus with llmqTypePlatform := .LLMQ_DEVNET_DIP0024 } ∧
    updateDevnetLLMQMnhfFromArgs devnetConsensus "llmq_devnet_dip0024" =
      .ok { devnetConsensus with llmqTypeMnhf := .LLMQ_DEVNET_DIP0024 } ∧
    updateDevnetLLMQChainLocksFromArgs devnetConsensus "llmq_devnet_dip0024" =
      .error "LLMQ type specified for -llmqchainlocks must NOT use rotation" := by
  decide

/-- C8 (amended): the chain-lock override rejects any catalog record whose
name matches and which uses rotation, and the instant-send (DIP0024)
override rejects any matching record which does not use rotation; the
platform and masternode-hard-fork overrides perform no rotation validation
and succeed for every matching name (over catalogs whose record types are
not LLMQ_NONE); all four fail when no record name matches. -/
theorem c8_override_validation (c : ConsensusState) (str : String) :
    ((∃ e ∈ c.llmqs, e.2.name = str ∧ e.2.useRotation = true) →
      (updateDevnetLLMQChainLocksFromArgs c str).isOk = false) ∧
    ((∃ e ∈ c.llmqs, e.2.name = str ∧ e.2.useRotation = false) →
      (updateDevnetLLMQInstantSendDIP0024FromArgs c str).isOk = false) ∧
    ((∀ e ∈ c.llmqs, e.2.type ≠ .LLMQ_NONE) → (∃ e ∈ c.llmqs, e.2.name = str) →
      (updateDevnetLLMQPlatformFromArgs c str).isOk = true ∧
      (updateDevnetLLMQMnhfFromArgs c str).isOk = true) := by
  refine ⟨?_, ?_, ?_⟩
  · intro hex
    unfold updateDevnetLLMQChainLocksFromArgs
    rw [exceptMap_isOk]
    exact chainLocksNameScan_rotation c.llmqs str hex .LLMQ_NONE
  · intro hex
    unfold updateDevnetLLMQInstantSendDIP0024FromArgs
    rw [exceptMap_isOk]
    exact instantSendNameScan_no_rotation c.llmqs str hex .LLMQ_NONE
  · intro htypes hex
    constructor
    · unfold updateDevnetLLMQPlatformFromArgs
      rw [exceptMap_isOk]
      exact platformNameScan_match_ok c.llmqs str htypes hex .LLMQ_NONE
    · unfold updateDevnetLLMQMnhfFromArgs
      rw [exceptMap_isOk]
      exact mnhfNameScan_match_ok c.llmqs str htypes hex .LLMQ_NONE

/-- C8 (witness): on the Devnet catalog, the instant-send override rejects
the non-rotation name `llmq_devnet` and the platform override accepts it. -/
theorem c8_override_validation_witness :
    (updateDevnetLLMQInstantSendDIP0024FromArgs devnetConsensus "llmq_devnet").isOk = false ∧
    (updateDevnetLLMQPlatformFromArgs devnetConsensus "llmq_devnet").isOk = true :=
  ⟨(c8_override_validation devnetConsensus "llmq_devnet").2.1
      ⟨(.LLMQ_DEVNET, llmq_devnet), by decide, by decide, by decide⟩,
   ((c8_override_validation devnetConsensus "llmq_devnet").2.2 (by decide)
      ⟨(.LLMQ_DEVNET, llmq_devnet), by decide, by decide⟩).1⟩

/-! ### C9: `-vbparams` override parsing -/

/-- C9 (counterexample): the well-formed 8-field string
`v20:5:10:-1:7:8:9:1` parses successfully, but the named deployment's
window field is NOT updated: `-1` is a keep-current-value sentinel, so
nWindowSize stays at its previous value 400 while the other fields are
written. -/
theorem c9_sentinel_counterexample :
    updateActivationParameters1 regtestDeployments "v20:5:10:-1:7:8:9:1" =
      .ok { regtestDeployments with
        v20 := { bit := 9, nStartTime := 5, nTimeout := 10, nWindowSize := 400,
                 nThresholdStart := 7, nThresholdMin := 8, nFalloffCoeff := 9,
                 useEHF := true } } ∧
    regtestDeployments.v20.nWindowSize = 400 ∧ (400 : Int) ≠ -1 := by
  refine ⟨rfl, rfl, by decide⟩

set_option maxHeartbeats 1600000 in
/-- C9 (amended): splitting a `-vbparams` string on `:` with a field count
other than 3, 5 or 8 fails with the malformed-parameters error; an
unparseable numeric field fails the call; an unknown deployment name fails
with an error naming the bad identifier; a well-formed 8-field string
updates exactly the named deployment via `UpdateVersionBitsParameters`,
which writes start and timeout unconditionally, writes each of window,
thresholdStart, thresholdMin, falloff and useEHF only when the supplied
value is not the `-1` sentinel (keeping the previous value otherwise), and
leaves every other deployment unchanged. -/
theorem c9_vbparams_parsing (t : DeploymentTable) (s : String) :
    ((splitString s ':').length ≠ 3 → (splitString s ':').length ≠ 5 →
      (splitString s ':').length ≠ 8 →
      updateActivationParameters1 t s = .error vbParamsMalformedMsg) ∧
    ((∃ i, 1 ≤ i ∧ i < (splitString s ':').length ∧
        parseInt64 ((splitString s ':').getD i "") = none) →
      (updateActivationParameters1 t s).isOk = false) ∧
    (∀ a b w ts tm fc ue j,
      (splitString s ':').length = 8 →
      parseInt64 ((splitString s ':').getD 1 "") = some a →
      parseInt64 ((splitString s ':').getD 2 "") = some b →
      parseInt64 ((splitString s ':').getD 3 "") = some w →
      parseInt64 ((splitString s ':').getD 4 "") = some ts →
      parseInt64 ((splitString s ':').getD 5 "") = some tm →
      parseInt64 ((splitString s ':').getD 6 "") = some fc →
      parseInt64 ((splitString s ':').getD 7 "") = some ue →
      (deploymentPositions.find? fun j2 => deploymentName j2 = (splitString s ':').getD 0 "") =
        some j →
      updateActivationParameters1 t s = .ok (updateVersionBitsParameters t j a b w ts tm fc ue)) ∧
    (∀ a b w ts tm fc ue,
      (splitString s ':').length = 8 →
      parseInt64 ((splitString s ':').getD 1 "") = some a →
      parseInt64 ((splitString s ':').getD 2 "") = some b →
      parseInt64 ((splitString s ':').getD 3 "") = some w →
      parseInt64 ((splitString s ':').getD 4 "") = some ts →
      parseInt64 ((splitString s ':').getD 5 "") = some tm →
      parseInt64 ((splitString s ':').getD 6 "") = some fc →
      parseInt64 ((splitString s ':').getD 7 "") = some ue →
      (deploymentPositions.find? fun j2 => deploymentName j2 = (splitString s ':').getD 0 "") =
        none →
      updateActivationParameters1 t s =
        .error ("Invalid deployment (" ++ (splitString s ':').getD 0 "" ++ ")")) ∧
    (∀ j a b w ts tm fc ue j2, j2 ≠ j →
      (updateVersionBitsParameters t j a b w ts tm fc ue).get j2 = t.get j2) ∧
    (∀ j a b w ts tm fc ue,
      ((updateVersionBitsParameters t j a b w ts tm fc ue).get j).nStartTime = a ∧
      ((updateVersionBitsParameters t j a b w ts tm fc ue).get j).nTimeout = b ∧
      (w ≠ -1 → ((updateVersionBitsParameters t j a b w ts tm fc ue).get j).nWindowSize = w) ∧
      (w = -1 →
        ((updateVersionBitsParameters t j a b w ts tm fc ue).get j).nWindowSize =
          (t.get j).nWindowSize) ∧
      (ts ≠ -1 →
        ((updateVersionBitsParameters t j a b w ts tm fc ue).get j).nThresholdStart = ts) ∧
      (ts = -1 →
        ((updateVersionBitsParameters t j a b w ts tm fc ue).get j).nThresholdStart =
          (t.get j).nThresholdStart) ∧
      (ue ≠ -1 →
        ((updateVersionBitsParameters t j a b w ts tm fc ue).get j).useEHF = decide (ue > 0)) ∧
      (ue = -1 →
        ((updateVersionBitsParameters t j a b w ts tm fc ue).get j).useEHF =
          (t.get j).useEHF)) := by
  refine ⟨?_, ?_, ?_, ?_, ?_, ?_⟩
  · intro h3 h5 h8
    show vbParamsParse t (splitString s ':') = _
    unfold vbParamsParse
    rw [if_pos ⟨h3, h5, h8⟩]
  · rintro ⟨i, hi1, hi2, hnone⟩
    show (vbParamsParse t (splitString s ':')).isOk = false
    unfold vbParamsParse
    by_cases hok : (splitString s ':').length = 3 ∨ (splitString s ':').length = 5 ∨
        (splitString s ':').length = 8
    · rw [if_neg (by tauto)]
      cases hp1 : parseInt64 ((splitString s ':').getD 1 "") with
      | none => rfl
      | some a =>
        simp only []
        cases hp2 : parseInt64 ((splitString s ':').getD 2 "") with
        | none => rfl
        | some b =>
          simp only []
          by_cases h5 : 5 ≤ (splitString s ':').length
          · rw [if_pos h5]
            cases hp3 : parseInt64 ((splitString s ':').getD 3 "") with
            | none => rfl
            | some w =>
              simp only []
              cases hp4 : parseInt64 ((splitString s ':').getD 4 "") with
              | none => rfl
              | some ts =>
                simp only []
                by_cases h8 : (splitString s ':').length = 8
                · rw [if_pos h8]
                  cases hp5 : parseInt64 ((splitString s ':').getD 5 "") with
                  | none => rfl
                  | some tm =>
                    cases hp6 : parseInt64 ((splitString s ':').getD 6 "") with
                    | none => rfl
                    | some fc =>
                      cases hp7 : parseInt64 ((splitString s ':').getD 7 "") with
                      | none => rfl
                      | some ue =>
                        exfalso
                        rw [h8] at hi2
                        interval_cases i <;> simp_all
                · exfalso
                  have hl5 : (splitString s ':').length = 5 := by
                    rcases hok with h | h | h <;> omega
                  rw [hl5] at hi2
                  interval_cases i <;> simp_all
          · exfalso
            have hl3 : (splitString s ':').length = 3 := by
              rcases hok with h | h | h <;> omega
            rw [hl3] at hi2
            interval_cases i <;> simp_all
    · push_neg at hok
      rw [if_pos ⟨hok.1, hok.2.1, hok.2.2⟩]
      rfl
  · intro a b w ts tm fc ue j hlen hp1 hp2 hp3 hp4 hp5 hp6 hp7 hfind
    show vbParamsParse t (splitString s ':') = _
    unfold vbParamsParse vbParamsApply
    rw [if_neg (by omega)]
    simp only [hp1, hp2, hp3, hp4, hp5, hp6, hp7, hlen, hfind]
    split
    · rfl
    · rename_i hh
      exact absurd (by norm_num) hh
  · intro a b w ts tm fc ue hlen hp1 hp2 hp3 hp4 hp5 hp6 hp7 hfind
    show vbParamsParse t (splitString s ':') = _
    unfold vbParamsParse vbParamsApply
    rw [if_neg (by omega)]
    simp only [hp1, hp2, hp3, hp4, hp5, hp6, hp7, hlen, hfind]
    split
    · rfl
    · rename_i hh
      exact absurd (by norm_num) hh
  · intro j a b w ts tm fc ue j2 hne
    cases j <;> cases j2 <;> first | exact absurd rfl hne | rfl
  · intro j a b w ts tm fc ue
    refine ⟨?_, ?_, ?_, ?_, ?_, ?_, ?_, ?_⟩ <;>
      [skip; skip; intro hx; intro hx; intro hx; intro hx; intro hx; intro hx] <;>
      cases j <;>
      simp only [updateVersionBitsParameters, DeploymentTable.get, DeploymentTable.set] <;>
      split_ifs <;>
      first | rfl | tauto

/-- C9 (witness): the concrete malformed, unparseable, unknown-name and
8-field cases instantiating the parsing theorem. -/
theorem c9_vbparams_parsing_witness :
    updateActivationParameters1 regtestDeployments "v20:0:1:2" = .error vbParamsMalformedMsg ∧
    (updateActivationParameters1 regtestDeployments "v20:abc:100").isOk = false ∧
    updateActivationParameters1 regtestDeployments "nosuch:0:100:2:3:4:5:6" =
      .error ("Invalid deployment (" ++ "nosuch" ++ ")") ∧
    updateActivationParameters1 regtestDeployments "v20:5:10:20:30:40:50:1" =
      .ok (updateVersionBitsParameters regtestDeployments .DEPLOYMENT_V20 5 10 20 30 40 50 1) :=
  ⟨(c9_vbparams_parsing regtestDeployments "v20:0:1:2").1 (by decide) (by decide) (by decide),
   (c9_vbparams_parsing regtestDeployments "v20:abc:100").2.1 ⟨1, by decide, by decide, by decide⟩,
   (c9_vbparams_parsing regtestDeployments "nosuch:0:100:2:3:4:5:6").2.2.2.1 0 100 2 3 4 5 6
     (by decide) (by decide) (by decide) (by decide) (by decide) (by decide) (by decide)
     (by decide) (by decide),
   (c9_vbparams_parsing regtestDeployments "v20:5:10:20:30:40:50:1").2.2.1 5 10 20 30 40 50 1
     .DEPLOYMENT_V20 (by decide) (by decide) (by decide) (by decide) (by decide) (by decide)
     (by decide) (by decide) (by decide)⟩

end Maximus
